import Mathlib

/-!
Verification development for the stream_audio.py audio streamer
(bankjaneo/siren).

The module-level mutable state of `stream_audio.py` (lines 37-46) is
embedded as the record `GState`; each Flask route handler becomes a pure
state transformer returning the updated state together with the JSON-ish
result it produces.  The `stream_audio` generator (lines 273-331) is
embedded as a small-step machine (`CursorPC`, `cursorStep`, `cursorRun`):
one step corresponds to one observable action of the generator (a signal
check, a chunk read, an end-of-file advance), so that command handlers can
interleave with it exactly as threads interleave in the program.
External effects that the claims do not depend on (Chromecast discovery,
the media controller, sleeps, logging) are abstracted into boolean
parameters or dropped, as noted at each definition.
-/

namespace Siren

/-- A 4096-byte chunk read from an MP3 file (line 313) is abstracted to an
opaque token; only identity of chunks matters to the claims. -/
abbrev Chunk := Nat

/-- The module-level mutable globals of stream_audio.py (lines 37-46).
`connected` stands for `chromecast is not None` (the `chromecast` /
`media_controller` handles themselves are opaque to the claims).
`threads_started` counts how many `stream_audio` background threads have
been launched (lines 417-418 and 482-483); it is an observation added for
the claims about duplicate streaming threads. -/
structure GState where
  is_paused : Bool
  pause_event : Bool
  restart_event : Bool
  current_file_index : Nat
  streaming_started : Bool
  current_volume : Int
  connected : Bool
  threads_started : Nat
deriving DecidableEq, Repr

/-- Initial global state (lines 38-46, with DEFAULT_VOLUME = 5 from
line 35): `is_paused = True`, both events unset, index 0, streaming not
started, no Chromecast connected. -/
def initialGState : GState :=
  { is_paused := true
    pause_event := false
    restart_event := false
    current_file_index := 0
    streaming_started := false
    current_volume := 5
    connected := false
    threads_started := 0 }

/-- `filename.lower().endswith(".mp3")` (line 78), over the character
list of the filename (ASCII case folding, as for the filenames at hand). -/
def hasMp3Ext (name : String) : Bool :=
  ".mp3".data.isSuffixOf (name.data.map Char.toLower)

/-- `os.path.join(folder, filename)` (line 79) for the shapes that occur
here (a possibly slash-terminated folder joined with a relative name). -/
def pathJoin (folder name : String) : String :=
  if folder = "" then name
  else if folder.data.getLast? = some '/' then folder ++ name
  else folder ++ "/" ++ name

/-- Lexicographic comparison of character lists (the order Python's
`sorted` uses on these ASCII path strings). -/
def charListLt : List Char → List Char → Bool
  | [], [] => false
  | [], _ :: _ => true
  | _ :: _, [] => false
  | a :: as, b :: bs => if a < b then true else if b < a then false else charListLt as bs

/-- Insertion step for the embedding of Python `sorted` (line 81). -/
def insertSorted (a : String) (l : List String) : List String :=
  match l with
  | [] => [a]
  | b :: rest =>
      if charListLt a.data b.data then a :: b :: rest else b :: insertSorted a rest

/-- Python `sorted` on a list of paths (line 81): ascending insertion sort. -/
def pySorted (l : List String) : List String :=
  l.foldr insertSorted []

/-- `get_mp3_files` (lines 66-81): if the music folder does not exist,
return `[]`; otherwise list the directory (`entries` is the `os.listdir`
result), keep names ending in ".mp3" case-insensitively, join each with
the folder, and sort.  `dirExists` stands for `os.path.exists(MUSIC_FOLDER)`. -/
def get_mp3_files (dirExists : Bool) (entries : List String) (folder : String) :
    List String :=
  if dirExists then pySorted ((entries.filter hasMp3Ext).map (pathJoin folder))
  else []

/-- Program counter of the `stream_audio` generator body (lines 293-331).
`loopTop` is the head of the outer `while True` (the pause-block of lines
294-297 followed by the file resolution of line 299); `reading chunks` is
the inner read loop (lines 304-317) with `chunks` still unread in the open
file; `afterFile` is the point after the inner loop (the restart check of
lines 323-325 and the advance of line 328); `done` is a normal generator
return (lines 285 and 290); `crashed` is an uncaught exception escaping to
the consumer (only possible at the unguarded indexing of line 299). -/
inductive CursorPC where
  | loopTop
  | reading (chunks : List Chunk)
  | afterFile
  | done
  | crashed
deriving DecidableEq, Repr

/-- Local state of one `stream_audio` execution: the playlist snapshot
`global_mp3_files` fetched once at line 281, plus the program counter. -/
structure CursorState where
  files : List String
  pc : CursorPC
deriving DecidableEq, Repr

/-- Entry of `stream_audio` (lines 279-291): fetch the playlist once
(line 281); if it is empty, return at once (lines 283-285); if no
Chromecast is connected and connecting fails, return (lines 287-290);
otherwise start the outer loop.  `connectOk` abstracts the success of
`find_chromecast()`. -/
def stream_audio_init (listing : List String) (connected connectOk : Bool) :
    CursorState :=
  { files := listing
    pc :=
      if listing.isEmpty then .done
      else if !connected && !connectOk then .done
      else .loopTop }

/-- One observable step of the `stream_audio` generator (lines 293-331).
`fs` is the file system: `fs path = none` means opening/reading `path`
raises (the `except` of lines 318-320 swallows it), `fs path = some cs`
means the file yields the chunk list `cs`.  The step returns the new
cursor state, the new global state, and the chunk yielded (if any).

- At `loopTop`: if the pause event is set, block (stutter; lines 294-297).
  Otherwise resolve `global_mp3_files[current_file_index]` (line 299) -
  out of range raises uncaught (`crashed`) since line 299 sits outside the
  `try` - and open it: an open error is swallowed and control reaches the
  code after the inner loop; success enters the read loop.
- At `reading`: the inner loop checks the pause event (lines 305-307,
  break), then the restart event (lines 308-311, clear it and break),
  then reads a chunk (line 313): end of file breaks (lines 314-315),
  otherwise the chunk is yielded (line 317).
- At `afterFile`: if the restart event is set, clear it and continue the
  outer loop without advancing (lines 323-325); otherwise advance the
  index by one modulo the snapshot length (line 328).  The conditional
  `time.sleep(LOOP_DELAY)` of lines 330-331 has no state effect. -/
def cursorStep (fs : String → Option (List Chunk)) (c : CursorState) (g : GState) :
    CursorState × GState × Option Chunk :=
  match c.pc with
  | .loopTop =>
      if g.pause_event then (c, g, none)
      else
        match c.files[g.current_file_index]? with
        | none => ({ c with pc := .crashed }, g, none)
        | some file =>
            match fs file with
            | none => ({ c with pc := .afterFile }, g, none)
            | some chunks => ({ c with pc := .reading chunks }, g, none)
  | .reading chunks =>
      if g.pause_event then ({ c with pc := .afterFile }, g, none)
      else if g.restart_event then
        ({ c with pc := .afterFile }, { g with restart_event := false }, none)
      else
        match chunks with
        | [] => ({ c with pc := .afterFile }, g, none)
        | ch :: rest => ({ c with pc := .reading rest }, g, some ch)
  | .afterFile =>
      if g.restart_event then
        ({ c with pc := .loopTop }, { g with restart_event := false }, none)
      else
        ({ c with pc := .loopTop },
         { g with current_file_index :=
            (g.current_file_index + 1) % c.files.length }, none)
  | .done => (c, g, none)
  | .crashed => (c, g, none)

/-- Run `n` steps of the generator, collecting the yielded chunks. -/
def cursorRun (fs : String → Option (List Chunk)) :
    Nat → CursorState → GState → CursorState × GState × List Chunk
  | 0, c, g => (c, g, [])
  | n + 1, c, g =>
      let s := cursorStep fs c g
      let r := cursorRun fs n s.1 s.2.1
      (r.1, r.2.1, s.2.2.toList ++ r.2.2)

/-- Result shape of the `/next` and `/previous` handlers. -/
inductive NavResult where
  | success (file_index : Nat)
  | failed (message : String)
deriving DecidableEq, Repr

/-- Result shape of the `/play` handler. -/
inductive PlayResult where
  | playing (files : Nat)
  | failed (message : String)
deriving DecidableEq, Repr

/-- Result shape of the `/volume/<value>` handler. -/
inductive VolumeResult where
  | success (volume : Int) (device : String)
  | failed (message : String)
deriving DecidableEq, Repr

/-- `pause` (lines 438-461): set the paused flag and the pause event
under the lock; the best-effort `media_controller.pause()` has no effect
on the embedded state; always answers `{"status": "paused"}`. -/
def pause_route (g : GState) : GState × String :=
  ({ g with is_paused := true, pause_event := true }, "paused")

/-- `resume` (lines 464-504): clear the paused flag and the pause event
(lines 475-477); if the global `streaming_started` flag is unset, set it
and launch a fresh `stream_audio` thread (lines 480-484); the media
controller interaction (lines 487-502) touches no embedded state; answers
`{"status": "resumed"}`. -/
def resume_route (g : GState) : GState × String :=
  let g1 := { g with is_paused := false, pause_event := false }
  let g2 :=
    if !g1.streaming_started then
      { g1 with streaming_started := true, threads_started := g1.threads_started + 1 }
    else g1
  (g2, "resumed")

/-- `next` (lines 572-600): re-list the playlist fresh (`fresh`, line
580); fail if empty (lines 581-583); advance the index by one modulo the
fresh length (line 585); under the lock clear paused/pause and set the
restart event (lines 588-591); the media stop/re-push (lines 593-599)
touches no embedded state. -/
def next_route (fresh : List String) (g : GState) : GState × NavResult :=
  if fresh.isEmpty then (g, .failed "No MP3 files found")
  else
    let idx := (g.current_file_index + 1) % fresh.length
    ({ g with current_file_index := idx, is_paused := false,
              pause_event := false, restart_event := true },
     .success idx)

/-- `previous` (lines 539-569): like `next` but the index moves to
`(current_file_index - 1 + N) % N` (lines 552-554); since the index is a
natural number this equals `(current_file_index + N - 1) % N`. -/
def previous_route (fresh : List String) (g : GState) : GState × NavResult :=
  if fresh.isEmpty then (g, .failed "No MP3 files found")
  else
    let idx := (g.current_file_index + fresh.length - 1) % fresh.length
    ({ g with current_file_index := idx, is_paused := false,
              pause_event := false, restart_event := true },
     .success idx)

/-- `play` (lines 374-435).  `fresh` is the fresh playlist of line 388;
`connectOk` abstracts `find_chromecast(device_name)` (line 395, including
its internal volume set), `pushOk` abstracts `play_stream_on_chromecast()`
(line 421) and `confirmed` the 30-second player-state poll (lines
425-432).  Inside the locked section (lines 401-406) the handler clears
the paused flag and both events and resets the index to 0; the assignment
`streaming_started = True` at line 404 binds a function-local name - the
`global` declaration of `play` (line 385) does not list
`streaming_started` - so the module-level flag is NOT written, and the
embedding leaves `GState.streaming_started` untouched.  Line 417 starts a
new `stream_audio` thread unconditionally. -/
def play_route (connectOk pushOk confirmed : Bool) (fresh : List String)
    (g : GState) : GState × PlayResult :=
  if fresh.isEmpty then (g, .failed "No MP3 files found in music/")
  else if !g.connected && !connectOk then
    (g, .failed "Could not find Chromecast device")
  else
    let g1 := if !g.connected then { g with connected := true } else g
    let g2 := { g1 with is_paused := false, pause_event := false,
                        current_file_index := 0, restart_event := false }
    let g3 := { g2 with threads_started := g2.threads_started + 1 }
    if !pushOk then (g3, .playing fresh.length)
    else if confirmed then (g3, .playing fresh.length)
    else (g3, .failed "Timeout waiting for playback to start")

/-- `set_volume` (lines 204-243): fails when no Chromecast is connected
(lines 217-219); otherwise the retry loop succeeds exactly when the
Chromecast status becomes ready within the retries, abstracted by
`ready`; on success the raw percentage is stored in `current_volume`
(line 229). -/
def set_volume (ready : Bool) (volume_percent : Int) (g : GState) :
    GState × Bool :=
  if !g.connected then (g, false)
  else if ready then ({ g with current_volume := volume_percent }, true)
  else (g, false)

/-- `volume` (lines 686-715): the handler first rejects when no
Chromecast is connected (lines 700-702), then validates the range
(lines 704-706), then delegates to `set_volume` under the lock (lines
708-715).  `device` is the connected device's friendly name echoed in the
success payload (line 713). -/
def volume_route (ready : Bool) (device : String) (value : Int) (g : GState) :
    GState × VolumeResult :=
  if !g.connected then (g, .failed "No Chromecast device connected")
  else if value < 1 ∨ value > 100 then
    (g, .failed "Volume must be between 1 and 100")
  else
    match set_volume ready value g with
    | (g1, true) => (g1, .success value device)
    | (g1, false) => (g1, .failed "Error setting volume")

/-- Python `str.replace(pat, "")` over character lists: scan left to
right; at `skip = 0`, if `pat` matches here, delete it (skip its
remaining characters) and continue after the occurrence (non-overlapping,
as in CPython); otherwise keep the character.  An empty pattern removes
nothing (matching `s.replace("", "")`). -/
def pyRA (pat : List Char) : List Char → Nat → List Char
  | [], _ => []
  | _ :: rest, skip + 1 => pyRA pat rest skip
  | c :: rest, 0 =>
      if pat.isPrefixOf (c :: rest) && !pat.isEmpty then
        pyRA pat rest (pat.length - 1)
      else c :: pyRA pat rest 0

/-- `f.replace(MUSIC_FOLDER, "")` (line 535): remove every occurrence of
`pat` from `s`. -/
def pyReplace (s pat : String) : String :=
  ⟨pyRA pat.data s.data 0⟩

/-- `files` (lines 526-536): map `f.replace(MUSIC_FOLDER, "")` over the
playlist and return it with the current index.  `mp3_files_list` is the
fresh `get_mp3_files()` result of line 534. -/
def files_route (folder : String) (mp3_files_list : List String) (idx : Nat) :
    List String × Nat :=
  (mp3_files_list.map (fun f => pyReplace f folder), idx)

/-- What claim C10 expects of one `files` entry: the configured root
prefix removed exactly once from the front, the remainder intact.  Stated
from the claim's words, for comparison with `files_route`. -/
def claimedStripOnce (folder f : String) : String :=
  if folder.data.isPrefixOf f.data then ⟨f.data.drop folder.data.length⟩ else f

/-- Does `pat` occur as a contiguous subsequence of `s`? (Boolean, for
concrete evaluation in hypotheses.) -/
def containsSeq (pat : List Char) : List Char → Bool
  | [] => pat.isEmpty
  | c :: rest => pat.isPrefixOf (c :: rest) || containsSeq pat rest

/-- A reachable mid-playback global state: streaming while file index 1
of a three-file playlist plays, both signals clear. -/
def exG0 : GState :=
  { is_paused := false
    pause_event := false
    restart_event := false
    current_file_index := 1
    streaming_started := true
    current_volume := 5
    connected := true
    threads_started := 1 }

/-- Like `exG0` but with the cursor on file index 0. -/
def exG2 : GState := { exG0 with current_file_index := 0 }

/-- Concrete file system for the restart scenario: three MP3 files with
distinguishable contents. -/
def exFs2 : String → Option (List Chunk) := fun f =>
  if f = "music/a.mp3" then some [10, 10]
  else if f = "music/b.mp3" then some [20]
  else if f = "music/c.mp3" then some [30]
  else none

/-- The three-file playlist of the restart scenario. -/
def exPl : List String := ["music/a.mp3", "music/b.mp3", "music/c.mp3"]

/-- Concrete file system where opening "music/x.mp3" raises. -/
def exErrFs : String → Option (List Chunk) := fun f =>
  if f = "music/y.mp3" then some [7] else none

/-- Concrete file system for the stale-snapshot scenario: b.mp3 was
present at stream start (content `[11]`), c.mp3 was added later
(content `[22]`). -/
def exDirFs : String → Option (List Chunk) := fun f =>
  if f = "music/a.mp3" then some [1]
  else if f = "music/b.mp3" then some [11]
  else if f = "music/c.mp3" then some [22]
  else none

/-! ### Helper lemmas -/

lemma isEmpty_false_of_ne_nil {l : List String} (h : l ≠ []) : l.isEmpty = false := by
  cases l with
  | nil => exact absurd rfl h
  | cons a t => rfl

lemma next_route_fst (fresh : List String) (g : GState) (h : fresh ≠ []) :
    (next_route fresh g).1 =
      { g with current_file_index := (g.current_file_index + 1) % fresh.length,
               is_paused := false, pause_event := false, restart_event := true } := by
  simp [next_route, isEmpty_false_of_ne_nil h]

lemma previous_route_fst (fresh : List String) (g : GState) (h : fresh ≠ []) :
    (previous_route fresh g).1 =
      { g with current_file_index :=
                 (g.current_file_index + fresh.length - 1) % fresh.length,
               is_paused := false, pause_event := false, restart_event := true } := by
  simp [previous_route, isEmpty_false_of_ne_nil h]

lemma resume_route_index (g : GState) :
    (resume_route g).1.current_file_index = g.current_file_index := by
  simp only [resume_route]
  split <;> rfl

lemma resume_route_not_started (g : GState) (h : g.streaming_started = false) :
    (resume_route g).1.threads_started = g.threads_started + 1 ∧
      (resume_route g).1.streaming_started = true := by
  simp [resume_route, h]

lemma play_route_streaming (a b c : Bool) (L : List String) (g : GState) :
    (play_route a b c L g).1.streaming_started = g.streaming_started := by
  simp only [play_route]
  repeat' split
  all_goals rfl

lemma cursorRun_succ_eq (fs : String → Option (List Chunk)) (n : Nat)
    (c : CursorState) (g : GState) :
    cursorRun fs (n + 1) c g =
      ((cursorRun fs n (cursorStep fs c g).1 (cursorStep fs c g).2.1).1,
       (cursorRun fs n (cursorStep fs c g).1 (cursorStep fs c g).2.1).2.1,
       (cursorStep fs c g).2.2.toList ++
         (cursorRun fs n (cursorStep fs c g).1 (cursorStep fs c g).2.1).2.2) := rfl

lemma cursorRun_stutter (fs : String → Option (List Chunk)) (n : Nat)
    (c : CursorState) (g : GState) (h : cursorStep fs c g = (c, g, none)) :
    cursorRun fs n c g = (c, g, []) := by
  induction n with
  | zero => rfl
  | succ n ih => rw [cursorRun_succ_eq, h]; simpa using ih

lemma cursorRun_done (fs : String → Option (List Chunk)) (n : Nat)
    (F : List String) (g : GState) :
    cursorRun fs n ⟨F, .done⟩ g = (⟨F, .done⟩, g, []) :=
  cursorRun_stutter fs n _ g rfl

lemma cursorRun_paused (fs : String → Option (List Chunk)) (n : Nat)
    (F : List String) (g : GState) (hp : g.pause_event = true) :
    cursorRun fs n ⟨F, .loopTop⟩ g = (⟨F, .loopTop⟩, g, []) :=
  cursorRun_stutter fs n _ g (by simp [cursorStep, hp])

lemma cursorStep_files (fs : String → Option (List Chunk)) (c : CursorState)
    (g : GState) : (cursorStep fs c g).1.files = c.files := by
  obtain ⟨F, pc⟩ := c
  cases pc <;> simp only [cursorStep] <;> repeat' split
  all_goals rfl

lemma cursorRun_files (fs : String → Option (List Chunk)) :
    ∀ (n : Nat) (c : CursorState) (g : GState),
      (cursorRun fs n c g).1.files = c.files := by
  intro n
  induction n with
  | zero => intro c g; rfl
  | succ n ih =>
      intro c g
      rw [cursorRun_succ_eq]
      exact (ih _ _).trans (cursorStep_files fs c g)

/-! ### Claim theorems -/

/-- C4 (corrected, part 1 - counterexample): the Streaming Cursor does
NOT resolve the Cursor Position against a freshly recomputed Playlist on
each iteration.  Concretely: the stream started while the directory held
a.mp3 and b.mp3 (the snapshot); afterwards b.mp3 was removed and c.mp3
added, so a fresh `get_mp3_files` now lists a.mp3 and c.mp3, whose entry
at the current index 1 is "music/c.mp3" with content `[22]`; yet the
cursor opens the snapshot's index-1 entry "music/b.mp3" and yields its
content `[11]`, not `[22]`. -/
theorem stream_stale_playlist_counterexample :
    (cursorRun exDirFs 2 ⟨["music/a.mp3", "music/b.mp3"], .loopTop⟩ exG0).2.2 = [11]
    ∧ get_mp3_files true ["a.mp3", "c.mp3"] "music/" = ["music/a.mp3", "music/c.mp3"]
    ∧ exDirFs "music/c.mp3" = some [22]
    ∧ (cursorRun exDirFs 2 ⟨["music/a.mp3", "music/b.mp3"], .loopTop⟩ exG0).2.2
        ≠ [22] := by
  decide

/-- C4 (corrected, part 2 - amended claim): `stream_audio` fetches the
Playlist once when the generator starts (line 281) and every later
iteration resolves the Cursor Position against that fixed snapshot: after
any number of steps of a Streaming Cursor execution started from listing
`listing`, the playlist the cursor indexes into is still `listing`, so
files added or removed after the stream starts are not reflected within
the same execution (only the command endpoints, or a new execution,
re-list the directory). -/
theorem stream_uses_start_snapshot (fs : String → Option (List Chunk)) (n : Nat)
    (listing : List String) (connected connectOk : Bool) (g : GState) :
    (cursorRun fs n (stream_audio_init listing connected connectOk) g).1.files
      = listing :=
  cursorRun_files fs n _ g

/-- C5 (confirmed): `play` never changes the module-level
`streaming_started` flag - the assignment at line 404 binds a
function-local name because the flag is missing from `play`'s `global`
declaration (line 385).  Starting from a state where the flag is `False`,
after any completed `play()` the flag is still `False`, and a subsequent
`resume()` therefore takes the streaming-not-started branch (lines
480-484): it flips the flag and launches an additional `stream_audio`
thread on top of the one `play` already started. -/
theorem play_leaves_streaming_started_false
    (connectOk pushOk confirmed : Bool) (fresh : List String) (g : GState)
    (h0 : g.streaming_started = false) :
    (play_route connectOk pushOk confirmed fresh g).1.streaming_started = false
    ∧ (resume_route (play_route connectOk pushOk confirmed fresh g).1).1.threads_started
        = (play_route connectOk pushOk confirmed fresh g).1.threads_started + 1
    ∧ (resume_route (play_route connectOk pushOk confirmed fresh g).1).1.streaming_started
        = true := by
  have hflag : (play_route connectOk pushOk confirmed fresh g).1.streaming_started = false :=
    (play_route_streaming connectOk pushOk confirmed fresh g).trans h0
  have hres := resume_route_not_started _ hflag
  exact ⟨hflag, hres.1, hres.2⟩

/-- Witness for C5 at a concrete successful play from the initial state. -/
theorem play_leaves_streaming_started_false_witness :
    initialGState.streaming_started = false
    ∧ ((play_route true true true ["a.mp3"] initialGState).1.streaming_started = false
       ∧ (resume_route (play_route true true true ["a.mp3"] initialGState).1).1.threads_started
           = (play_route true true true ["a.mp3"] initialGState).1.threads_started + 1
       ∧ (resume_route (play_route true true true ["a.mp3"] initialGState).1).1.streaming_started
           = true) :=
  ⟨by decide, play_leaves_streaming_started_false true true true ["a.mp3"] initialGState (by decide)⟩

/-- C6 (corrected, part 1 - counterexample): with no receiver session
(`chromecast is None`), `setVolume(150)` does not fail with the
InvalidInput message - the session check at lines 700-702 precedes the
range check at lines 704-706, so the result is
`{status:"failed", message:"No Chromecast device connected"}` (the Volume
Level is still unchanged). -/
theorem volume_no_session_counterexample :
    (volume_route true "Bedroom speaker" 150 initialGState).2
        = VolumeResult.failed "No Chromecast device connected"
    ∧ (volume_route true "Bedroom speaker" 150 initialGState).2
        ≠ VolumeResult.failed "Volume must be between 1 and 100"
    ∧ (volume_route true "Bedroom speaker" 150 initialGState).1.current_volume
        = initialGState.current_volume := by
  decide

/-- C6 (corrected, part 2 - amended claim): for every integer `v` outside
`[1,100]`, the `volume` handler leaves the whole global state (in
particular `current_volume`) unchanged; when a receiver session exists it
fails with the InvalidInput message "Volume must be between 1 and 100",
and when no session exists the session check takes precedence and it
fails with "No Chromecast device connected" instead. -/
theorem volume_out_of_range_state (ready : Bool) (device : String) (value : Int)
    (g : GState) (h : value < 1 ∨ value > 100) :
    (volume_route ready device value g).1 = g
    ∧ (g.connected = true →
        (volume_route ready device value g).2
          = VolumeResult.failed "Volume must be between 1 and 100")
    ∧ (g.connected = false →
        (volume_route ready device value g).2
          = VolumeResult.failed "No Chromecast device connected") := by
  cases hcg : g.connected <;>
    simp [volume_route, hcg, h]

/-- Witness for C6 at `v = 150` with a connected receiver. -/
theorem volume_out_of_range_state_witness :
    ((150 : Int) < 1 ∨ (150 : Int) > 100)
    ∧ ((volume_route true "Bedroom speaker" 150 { initialGState with connected := true }).1
          = { initialGState with connected := true }
       ∧ ({ initialGState with connected := true }.connected = true →
            (volume_route true "Bedroom speaker" 150 { initialGState with connected := true }).2
              = VolumeResult.failed "Volume must be between 1 and 100")
       ∧ ({ initialGState with connected := true }.connected = false →
            (volume_route true "Bedroom speaker" 150 { initialGState with connected := true }).2
              = VolumeResult.failed "No Chromecast device connected")) :=
  ⟨by decide,
   volume_out_of_range_state true "Bedroom speaker" 150
     { initialGState with connected := true } (by decide)⟩

/-- C9 (confirmed): when the Playlist is empty - the music directory is
absent, or none of its entries has the ".mp3" extension - the
`stream_audio` generator returns at lines 283-285 before entering its
loop: any number of steps yields zero chunks, the program counter is the
normal-return state `done` (never `crashed`), and the globals are
untouched. -/
theorem empty_playlist_streams_nothing (fs : String → Option (List Chunk))
    (n : Nat) (g : GState) (connected connectOk dirExists : Bool)
    (entries : List String) (folder : String)
    (h : dirExists = false ∨ ∀ e ∈ entries, hasMp3Ext e = false) :
    cursorRun fs n
        (stream_audio_init (get_mp3_files dirExists entries folder) connected connectOk) g
      = (stream_audio_init (get_mp3_files dirExists entries folder) connected connectOk,
         g, [])
    ∧ (stream_audio_init (get_mp3_files dirExists entries folder) connected connectOk).pc
        = .done := by
  have hnil : get_mp3_files dirExists entries folder = [] := by
    rcases h with h | h
    · simp [get_mp3_files, h]
    · have : entries.filter hasMp3Ext = [] :=
        List.filter_eq_nil_iff.mpr (by intro a ha; simp [h a ha])
      simp [get_mp3_files, this, pySorted]
  rw [hnil]
  exact ⟨cursorRun_done fs n [] g, rfl⟩

/-- Witness for C9: a directory containing only a text file. -/
theorem empty_playlist_streams_nothing_witness :
    ((true : Bool) = false ∨ ∀ e ∈ ["readme.txt"], hasMp3Ext e = false)
    ∧ (cursorRun (fun _ => none) 5
          (stream_audio_init (get_mp3_files true ["readme.txt"] "music/") false false)
          initialGState
        = (stream_audio_init (get_mp3_files true ["readme.txt"] "music/") false false,
           initialGState, [])
       ∧ (stream_audio_init (get_mp3_files true ["readme.txt"] "music/") false false).pc
           = .done) :=
  ⟨Or.inr (by decide),
   empty_playlist_streams_nothing (fun _ => none) 5 initialGState false false true
     ["readme.txt"] "music/" (Or.inr (by decide))⟩

lemma next_iterate_index (fresh : List String) (h : fresh ≠ []) :
    ∀ (k : Nat) (g : GState),
      ((fun s => (next_route fresh s).1)^[k + 1] g).current_file_index
        = (g.current_file_index + (k + 1)) % fresh.length := by
  intro k
  induction k with
  | zero =>
      intro g
      simp [Function.iterate_one, next_route_fst fresh g h]
  | succ k ih =>
      intro g
      rw [Function.iterate_succ_apply, ih, next_route_fst fresh g h]
      show ((g.current_file_index + 1) % fresh.length + (k + 1)) % fresh.length
        = (g.current_file_index + (k + 1 + 1)) % fresh.length
      rw [Nat.mod_add_mod]
      congr 1
      omega

/-- C7 (confirmed): with the file set unchanged between calls, `next()`
adds one to the Cursor Position modulo the playlist length N (line 585),
so N applications return the position to its starting value; and in the
concrete scenario - playlist a.mp3/b.mp3/c.mp3, `play()` resetting the
index to 0 - three calls to `next()` report indices 1, 2, 0. -/
theorem next_route_cycles (fresh : List String) (g : GState)
    (hne : fresh ≠ []) (hidx : g.current_file_index < fresh.length) :
    ((fun s => (next_route fresh s).1)^[fresh.length] g).current_file_index
        = g.current_file_index
    ∧ (next_route ["a.mp3", "b.mp3", "c.mp3"]
         (play_route true true true ["a.mp3", "b.mp3", "c.mp3"] initialGState).1).2
        = .success 1
    ∧ (next_route ["a.mp3", "b.mp3", "c.mp3"]
         (next_route ["a.mp3", "b.mp3", "c.mp3"]
           (play_route true true true ["a.mp3", "b.mp3", "c.mp3"] initialGState).1).1).2
        = .success 2
    ∧ (next_route ["a.mp3", "b.mp3", "c.mp3"]
         (next_route ["a.mp3", "b.mp3", "c.mp3"]
           (next_route ["a.mp3", "b.mp3", "c.mp3"]
             (play_route true true true ["a.mp3", "b.mp3", "c.mp3"] initialGState).1).1).1).2
        = .success 0 := by
  refine ⟨?_, by decide, by decide, by decide⟩
  obtain ⟨m, hm⟩ : ∃ m, fresh.length = m + 1 := by
    cases fresh with
    | nil => exact absurd rfl hne
    | cons a t => exact ⟨t.length, rfl⟩
  rw [hm, next_iterate_index fresh hne m g]
  rw [← hm, Nat.add_mod_right, Nat.mod_eq_of_lt hidx]

/-- Witness for C7 at the three-file scenario playlist starting from the
post-play state (index 0). -/
theorem next_route_cycles_witness :
    (["a.mp3", "b.mp3", "c.mp3"] : List String) ≠ []
    ∧ initialGState.current_file_index < (["a.mp3", "b.mp3", "c.mp3"] : List String).length
    ∧ ((fun s => (next_route ["a.mp3", "b.mp3", "c.mp3"] s).1)^[3] initialGState).current_file_index
        = initialGState.current_file_index :=
  ⟨by decide, by decide,
   (next_route_cycles ["a.mp3", "b.mp3", "c.mp3"] initialGState
     (by decide) (by decide)).1⟩

/-- C8 (confirmed): `previous()` (lines 552-554) is the exact inverse of
`next()` (line 585) on the Cursor Position under modulo-N arithmetic:
for any index below N, next-then-previous and previous-then-next both
restore the index, and `previous()` from index 0 wraps to N - 1. -/
theorem previous_next_inverse (fresh : List String) (g : GState)
    (hne : fresh ≠ []) (hidx : g.current_file_index < fresh.length) :
    (previous_route fresh (next_route fresh g).1).1.current_file_index
        = g.current_file_index
    ∧ (next_route fresh (previous_route fresh g).1).1.current_file_index
        = g.current_file_index
    ∧ (g.current_file_index = 0 →
        (previous_route fresh g).1.current_file_index = fresh.length - 1) := by
  have hN : 0 < fresh.length := by
    cases fresh with
    | nil => exact absurd rfl hne
    | cons a t => simp
  refine ⟨?_, ?_, ?_⟩
  · rw [next_route_fst fresh g hne, previous_route_fst fresh _ hne]
    show ((g.current_file_index + 1) % fresh.length + fresh.length - 1) % fresh.length
      = g.current_file_index
    have h1 : (g.current_file_index + 1) % fresh.length + fresh.length - 1
        = (g.current_file_index + 1) % fresh.length + (fresh.length - 1) := by omega
    rw [h1, Nat.mod_add_mod]
    have h2 : g.current_file_index + 1 + (fresh.length - 1)
        = g.current_file_index + fresh.length := by omega
    rw [h2, Nat.add_mod_right, Nat.mod_eq_of_lt hidx]
  · rw [previous_route_fst fresh g hne, next_route_fst fresh _ hne]
    show ((g.current_file_index + fresh.length - 1) % fresh.length + 1) % fresh.length
      = g.current_file_index
    rw [Nat.mod_add_mod]
    have h2 : g.current_file_index + fresh.length - 1 + 1
        = g.current_file_index + fresh.length := by omega
    rw [h2, Nat.add_mod_right, Nat.mod_eq_of_lt hidx]
  · intro h0
    rw [previous_route_fst fresh g hne]
    show (g.current_file_index + fresh.length - 1) % fresh.length = fresh.length - 1
    rw [h0]
    have : 0 + fresh.length - 1 = fresh.length - 1 := by omega
    rw [this, Nat.mod_eq_of_lt (by omega)]

/-- Witness for C8 at the three-file playlist with the cursor at index 0
(exercising the wrap to N - 1). -/
theorem previous_next_inverse_witness :
    (["a.mp3", "b.mp3", "c.mp3"] : List String) ≠ []
    ∧ exG2.current_file_index < (["a.mp3", "b.mp3", "c.mp3"] : List String).length
    ∧ ((previous_route ["a.mp3", "b.mp3", "c.mp3"]
          (next_route ["a.mp3", "b.mp3", "c.mp3"] exG2).1).1.current_file_index
        = exG2.current_file_index
       ∧ (next_route ["a.mp3", "b.mp3", "c.mp3"]
            (previous_route ["a.mp3", "b.mp3", "c.mp3"] exG2).1).1.current_file_index
          = exG2.current_file_index
       ∧ (exG2.current_file_index = 0 →
           (previous_route ["a.mp3", "b.mp3", "c.mp3"] exG2).1.current_file_index
             = (["a.mp3", "b.mp3", "c.mp3"] : List String).length - 1)) :=
  ⟨by decide, by decide,
   previous_next_inverse ["a.mp3", "b.mp3", "c.mp3"] exG2 (by decide) (by decide)⟩

lemma cursorRun_step (fs : String → Option (List Chunk)) (n : Nat)
    (c : CursorState) (g : GState) (c' : CursorState) (g' : GState)
    (o : Option Chunk) (h : cursorStep fs c g = (c', g', o)) :
    cursorRun fs (n + 1) c g
      = ((cursorRun fs n c' g').1, (cursorRun fs n c' g').2.1,
         o.toList ++ (cursorRun fs n c' g').2.2) := by
  rw [cursorRun_succ_eq, h]

/-- C1 (corrected, part 1 - counterexample): cursor mid-file at index 1
of a three-file playlist; `pause()` is issued, the cursor observes the
pause event at its next chunk check and breaks out of the inner loop
(lines 305-307), but the end-of-file advance at line 328 still runs;
after `resume()` the Cursor Position is 2, not the 1 it held when
`pause()` was issued. -/
theorem pause_resume_position_counterexample :
    (resume_route (cursorRun (fun _ => none) 2
        ⟨["a.mp3", "b.mp3", "c.mp3"], .reading [5, 6]⟩
        (pause_route exG0).1).2.1).1.current_file_index = 2
    ∧ (resume_route (cursorRun (fun _ => none) 2
        ⟨["a.mp3", "b.mp3", "c.mp3"], .reading [5, 6]⟩
        (pause_route exG0).1).2.1).1.current_file_index
      ≠ exG0.current_file_index := by
  decide

/-- C1 (corrected, part 2 - amended claim): issuing `pause()` while the
Streaming Cursor is mid-file (no restart pending) and later `resume()`,
with no intervening `play()`/`next()`/`previous()`, leaves the Cursor
Position at `(i + 1) % N` where `i` is its value when `pause()` was
issued: the pause break skips the rest of the file but falls through to
the line-328 advance; the cursor then blocks at the top of the outer loop
(yielding no further chunks) until `resume()`, which does not touch the
index. -/
theorem pause_resume_advances_cursor (fs : String → Option (List Chunk))
    (L : List String) (chunks : List Chunk) (n : Nat) (g : GState)
    (_hL : L ≠ []) (hr : g.restart_event = false) :
    (resume_route (cursorRun fs (n + 2) ⟨L, .reading chunks⟩
        (pause_route g).1).2.1).1.current_file_index
      = (g.current_file_index + 1) % L.length
    ∧ (cursorRun fs (n + 2) ⟨L, .reading chunks⟩ (pause_route g).1).2.2 = [] := by
  have h1 : cursorStep fs ⟨L, .reading chunks⟩ (pause_route g).1
      = (⟨L, .afterFile⟩, (pause_route g).1, none) := by
    simp [cursorStep, pause_route]
  have h2 : cursorStep fs ⟨L, .afterFile⟩ (pause_route g).1
      = (⟨L, .loopTop⟩,
         { (pause_route g).1 with
            current_file_index := (g.current_file_index + 1) % L.length }, none) := by
    simp [cursorStep, pause_route, hr]
  have hrun : cursorRun fs (n + 2) ⟨L, .reading chunks⟩ (pause_route g).1
      = (⟨L, .loopTop⟩,
         { (pause_route g).1 with
            current_file_index := (g.current_file_index + 1) % L.length }, []) := by
    rw [show n + 2 = n + 1 + 1 from rfl,
        cursorRun_step fs (n + 1) _ _ _ _ _ h1,
        cursorRun_step fs n _ _ _ _ _ h2,
        cursorRun_paused fs n L _ (by simp [pause_route])]
    rfl
  rw [hrun, resume_route_index]
  exact ⟨rfl, rfl⟩

/-- Witness for C1's amended claim: the counterexample scenario, where
the index moves from 1 to (1 + 1) % 3 = 2. -/
theorem pause_resume_advances_cursor_witness :
    (["a.mp3", "b.mp3", "c.mp3"] : List String) ≠ []
    ∧ exG0.restart_event = false
    ∧ ((resume_route (cursorRun (fun _ => none) (0 + 2)
          ⟨["a.mp3", "b.mp3", "c.mp3"], .reading [5, 6]⟩
          (pause_route exG0).1).2.1).1.current_file_index
        = (exG0.current_file_index + 1) % (["a.mp3", "b.mp3", "c.mp3"] : List String).length
       ∧ (cursorRun (fun _ => none) (0 + 2)
            ⟨["a.mp3", "b.mp3", "c.mp3"], .reading [5, 6]⟩
            (pause_route exG0).1).2.2 = []) :=
  ⟨by decide, by decide,
   pause_resume_advances_cursor (fun _ => none) ["a.mp3", "b.mp3", "c.mp3"]
     [5, 6] 0 exG0 (by decide) (by decide)⟩

/-- C2 (code bug): evaluation of the code at the failing input.  The
cursor streams index 0 of the three-file playlist `exPl` mid-file;
`next()` sets the Cursor Position to 1 (reporting
`{status:"success", file_index:1}`) and raises the Restart Signal.  The
cursor observes the signal at the inner chunk check and clears it there
(line 309), so the restart check after the inner loop (line 323) finds it
already cleared and the end-of-file advance (line 328) runs: three steps
later the cursor is at index 2 reading the content `[30]` of
"music/c.mp3", not the content `[20]` of the index-1 file "music/b.mp3"
that both the spec and the `/next` contract promise. -/
theorem next_restart_plays_wrong_file :
    (next_route exPl exG2).2 = NavResult.success 1
    ∧ exPl[1]? = some "music/b.mp3"
    ∧ exFs2 "music/b.mp3" = some [20]
    ∧ (cursorRun exFs2 3 ⟨exPl, .reading [10]⟩ (next_route exPl exG2).1).1.pc
        = CursorPC.reading [30]
    ∧ (cursorRun exFs2 3 ⟨exPl, .reading [10]⟩
        (next_route exPl exG2).1).2.1.current_file_index = 2
    ∧ CursorPC.reading [30] ≠ CursorPC.reading [20] := by
  decide

/-- C3 (corrected, part 1 - counterexample): opening "music/x.mp3" (the
file at Cursor Position 0) raises; the error is swallowed, but the cursor
does NOT retry the same track: line 328 still advances the Cursor
Position to 1. -/
theorem stream_error_retry_counterexample :
    (cursorRun exErrFs 2 ⟨["music/x.mp3", "music/y.mp3"], .loopTop⟩
        exG2).2.1.current_file_index = 1
    ∧ (cursorRun exErrFs 2 ⟨["music/x.mp3", "music/y.mp3"], .loopTop⟩
        exG2).2.1.current_file_index ≠ exG2.current_file_index
    ∧ (cursorRun exErrFs 2 ⟨["music/x.mp3", "music/y.mp3"], .loopTop⟩ exG2).1.pc
        = .loopTop
    ∧ exErrFs "music/x.mp3" = none := by
  decide

/-- C3 (corrected, part 2 - amended claim): when opening/reading the file
at the current Cursor Position raises, the error is swallowed - the
iteration completes with no chunk yielded and no exception reaching the
consumer (the machine returns to `loopTop`, never `crashed`) - and the
Cursor Position ADVANCES by +1 modulo N (line 328 runs on the error path
too), so the next track is tried rather than the same track retried. -/
theorem stream_error_swallowed_advances (fs : String → Option (List Chunk))
    (L : List String) (g : GState)
    (hp : g.pause_event = false) (hr : g.restart_event = false)
    (hi : g.current_file_index < L.length)
    (herr : fs (L.get ⟨g.current_file_index, hi⟩) = none) :
    cursorRun fs 2 ⟨L, .loopTop⟩ g
      = (⟨L, .loopTop⟩,
         { g with current_file_index := (g.current_file_index + 1) % L.length },
         []) := by
  have hres : L[g.current_file_index]? = some (L.get ⟨g.current_file_index, hi⟩) := by
    simp [List.getElem?_eq_getElem hi, List.get_eq_getElem]
  have herr2 := herr
  rw [List.get_eq_getElem] at herr2
  have h1 : cursorStep fs ⟨L, .loopTop⟩ g = (⟨L, .afterFile⟩, g, none) := by
    simp [cursorStep, hp, hres, herr2]
  have h2 : cursorStep fs ⟨L, .afterFile⟩ g
      = (⟨L, .loopTop⟩,
         { g with current_file_index := (g.current_file_index + 1) % L.length },
         none) := by
    simp [cursorStep, hr]
  rw [show (2 : Nat) = 1 + 1 from rfl,
      cursorRun_step fs 1 _ _ _ _ _ h1,
      cursorRun_step fs 0 _ _ _ _ _ h2]
  rfl

/-- Witness for C3's amended claim: a one-file playlist whose file always
fails to open; the index wraps from 0 to (0 + 1) % 1 = 0. -/
theorem stream_error_swallowed_advances_witness :
    initialGState.pause_event = false
    ∧ initialGState.restart_event = false
    ∧ initialGState.current_file_index < (["a.mp3"] : List String).length
    ∧ cursorRun (fun _ => none) 2 ⟨["a.mp3"], .loopTop⟩ initialGState
        = (⟨["a.mp3"], .loopTop⟩,
           { initialGState with
              current_file_index :=
                (initialGState.current_file_index + 1) % (["a.mp3"] : List String).length },
           []) :=
  ⟨by decide, by decide, by decide,
   stream_error_swallowed_advances (fun _ => none) ["a.mp3"] initialGState
     (by decide) (by decide) (by decide) (by decide)⟩

lemma isPrefixOf_append_self (l t : List Char) : l.isPrefixOf (l ++ t) = true := by
  induction l with
  | nil => rw [List.nil_append]; cases t <;> rfl
  | cons a as ih => simp [List.isPrefixOf, ih]

lemma pyRA_skip_append (pat : List Char) :
    ∀ (ps rest : List Char), pyRA pat (ps ++ rest) ps.length = pyRA pat rest 0 := by
  intro ps
  induction ps with
  | nil => intro rest; rfl
  | cons q qs ih => intro rest; simpa [pyRA] using ih rest

lemma pyRA_not_contains (pat : List Char) :
    ∀ s, containsSeq pat s = false → pyRA pat s 0 = s := by
  intro s
  induction s with
  | nil => intro h; rfl
  | cons c rest ih =>
      intro h
      rw [containsSeq] at h
      obtain ⟨h1, h2⟩ := Bool.or_eq_false_iff.mp h
      simp [pyRA, h1, ih h2]

lemma pyRA_strip (pat rest : List Char) (h : pat ≠ []) :
    pyRA pat (pat ++ rest) 0 = pyRA pat rest 0 := by
  cases pat with
  | nil => exact absurd rfl h
  | cons p ps =>
      have hpre : (p :: ps).isPrefixOf ((p :: ps) ++ rest) = true :=
        isPrefixOf_append_self _ _
      rw [List.cons_append] at hpre ⊢
      rw [pyRA, if_pos (by simp [hpre])]
      simpa using pyRA_skip_append (p :: ps) ps rest

/-- C10 (corrected, part 1 - counterexample): with the music directory
configured as "music" the playlist produced for a file named
"my music.mp3" is ["music/my music.mp3"]; the claim expects the root
prefix removed exactly once from the front ("/my music.mp3", as
`claimedStripOnce` computes), but `f.replace(MUSIC_FOLDER, "")` at line
535 removes EVERY occurrence of the directory string, mangling the
filename to "/my .mp3". -/
theorem files_route_strip_counterexample :
    claimedStripOnce "music" "music/my music.mp3" = "/my music.mp3"
    ∧ get_mp3_files true ["my music.mp3"] "music" = ["music/my music.mp3"]
    ∧ files_route "music" ["music/my music.mp3"] 0 = (["/my .mp3"], 0)
    ∧ (["/my .mp3"] : List String) ≠ ["/my music.mp3"] := by
  decide

/-- C10 (corrected, part 2 - amended claim): `listFiles` removes every
occurrence of the configured directory string from each playlist entry
(Python `str.replace` replaces all occurrences) and returns the list with
the current index; when the directory string does not occur inside the
remainder of the path, this coincides with stripping the prefix exactly
once, so the entry `folder ++ rest` is returned as `rest`. -/
theorem files_route_strips_every_occurrence (folder rest : String) (idx : Nat)
    (h1 : folder.data ≠ []) (h2 : containsSeq folder.data rest.data = false) :
    files_route folder [⟨folder.data ++ rest.data⟩] idx = ([rest], idx) := by
  show ([⟨pyRA folder.data (folder.data ++ rest.data) 0⟩], idx) = ([rest], idx)
  rw [pyRA_strip _ _ h1, pyRA_not_contains _ _ h2]

/-- Witness for C10's amended claim: the default folder "music/" and the
entry "music/song.mp3", returned as "song.mp3". -/
theorem files_route_strips_every_occurrence_witness :
    "music/".data ≠ []
    ∧ containsSeq "music/".data "song.mp3".data = false
    ∧ files_route "music/" [⟨"music/".data ++ "song.mp3".data⟩] 0 = (["song.mp3"], 0) :=
  ⟨by decide, by decide,
   files_route_strips_every_occurrence "music/" "song.mp3" 0 (by decide) (by decide)⟩

end Siren
